import Mathlib

/-!
Formal model of the AI voice receptionist bridge server (src/main.py): the
audio transcoding between the telephone leg and the agent leg, the per-call
session registry, the booking tool handler, the post-call hand-off, and the
websocket relay orchestration.

Machine integers are modelled as Nat / Int, byte strings as List Nat (each
entry one byte value), and the external collaborators (the tenant lookup, the
booking flow, the post-call flow, the two network legs, and the asyncio
scheduler) as explicit oracle inputs.  The audio primitives are translated
from CPython's Modules/audioop.c, which the source calls through the stdlib
audioop module.
-/

namespace Receptionist

/-! ## Audio codec converter (audioop primitives used by main.py) -/

/-- Decode one mu-law byte to a signed 16-bit linear sample; this is the
    generating formula of CPython audioop's st_ulaw2linear16 table. -/
def st_ulaw2linear16 (u : Nat) : Int :=
  let v := 255 - u % 256
  let t : Int := ((v % 16) * 8 + 132) * 2 ^ (v / 16 % 8)
  if 128 ≤ v then 132 - t else t - 132

/-- Signed 16-bit value of two little-endian bytes. -/
def int16OfBytes (lo hi : Nat) : Int :=
  let u := lo % 256 + 256 * (hi % 256)
  if u < 32768 then (u : Int) else (u : Int) - 65536

/-- Two little-endian bytes holding the low 16 bits of an integer sample. -/
def bytesOfInt16 (v : Int) : List Nat :=
  let u := (v % 65536).toNat
  [u % 256, u / 256]

/-- Group a byte list into signed 16-bit little-endian samples; callers check
    that the length is a whole number of frames first. -/
def samplesOfBytes : List Nat → List Int
  | lo :: hi :: rest => int16OfBytes lo hi :: samplesOfBytes rest
  | _ => []

/-- audioop.ulaw2lin with width 2: every input byte is one companded sample,
    so any input length is accepted. -/
def ulaw2lin2 (frag : List Nat) : List Nat :=
  frag.flatMap fun b => bytesOfInt16 (st_ulaw2linear16 b)

/-- G.711 segment end table (audioop seg_uend). -/
def seg_uend : List Int := [63, 127, 255, 511, 1023, 2047, 4095, 8191]

/-- Index of the first table entry that val is at most (audioop search);
    the table size if every entry is below val. -/
def segSearch (val : Int) : List Int → Nat
  | [] => 0
  | t :: rest => if val ≤ t then 0 else segSearch val rest + 1

/-- Encode one 14-bit-range linear sample to a mu-law byte (audioop
    st_14linear2ulaw, with BIAS 0x84 and CLIP 8159). -/
def st_14linear2ulaw (pcm : Int) : Nat :=
  let mask : Nat := if pcm < 0 then 127 else 255
  let mag0 := if pcm < 0 then -pcm else pcm
  let mag1 := if 8159 < mag0 then 8159 else mag0
  let mag := mag1 + 33
  let seg := segSearch mag seg_uend
  if 8 ≤ seg then Nat.xor 127 mask
  else Nat.xor (seg * 16 + mag.toNat / 2 ^ (seg + 1) % 16) mask

/-- audioop.lin2ulaw with width 2: raises (none) unless the byte length is a
    whole number of 16-bit frames; each sample is arithmetically shifted right
    by 18 bits from its 32-bit form, i.e. floor-divided by 4 from 16 bits. -/
def lin2ulaw2 (frag : List Nat) : Option (List Nat) :=
  if frag.length % 2 = 0 then
    some ((samplesOfBytes frag).map fun s => st_14linear2ulaw (Int.fdiv s 4))
  else none

/-- Emission phase of audioop.ratecv: output interpolated samples while the
    accumulator d is nonnegative, stepping it down by inr each time.  The C
    division casts the exact quotient to int, truncating toward zero, which is
    Int.tdiv here.  Fuel d.toNat + 1 is always sufficient since inr is at least
    one after gcd reduction. -/
def emitLoop : Nat → Int → Int → Int → Int → Int → List Int × Int
  | 0, _, _, _, _, d => ([], d)
  | fuel + 1, prev, cur, inr, outr, d =>
    if d < 0 then ([], d)
    else
      let o := Int.tdiv (prev * d + cur * (outr - d)) outr
      let (os, dEnd) := emitLoop fuel prev cur inr outr (d - inr)
      (o :: os, dEnd)

/-- Main loop of audioop.ratecv for one channel with the default filter
    weights (weightA 1, weightB 0, under which the digital filter is the
    identity): consume one input sample while d is negative, then emit. -/
def ratecvLoop : List Int → Int → Int → Int → Int → List Int
  | [], _, _, _, _ => []
  | s :: rest, cur, inr, outr, d =>
    let prev := cur
    let dNew := d + outr
    if dNew < 0 then ratecvLoop rest s inr outr dNew
    else
      let (os, dEnd) := emitLoop (dNew.toNat + 1) prev s inr outr dNew
      os ++ ratecvLoop rest s inr outr dEnd

/-- audioop.ratecv for width 2, one channel, state None — the configuration at
    both call sites in main.py, which also both discard the returned filter
    state.  Raises (none) on a byte length that is not a whole number of
    frames or on a zero rate. -/
def ratecv (frag : List Nat) (inrate outrate : Nat) : Option (List Nat) :=
  if frag.length % 2 = 0 then
    if inrate = 0 ∨ outrate = 0 then none
    else
      let g := Nat.gcd inrate outrate
      let inr : Int := (inrate / g : Nat)
      let outr : Int := (outrate / g : Nat)
      let samples := (samplesOfBytes frag).map fun s => s * 65536
      let outs := ratecvLoop samples 0 inr outr (-outr)
      some (outs.flatMap fun o => bytesOfInt16 (Int.fdiv o 65536))
  else none

/-- Caller-to-agent conversion of twilio_to_gemini (main.py lines 156-158):
    mu-law decode, then resample 8000 to 24000. -/
def twilioToGeminiAudio (mulawBytes : List Nat) : Option (List Nat) :=
  ratecv (ulaw2lin2 mulawBytes) 8000 24000

/-- Agent-to-caller conversion of gemini_to_twilio (main.py lines 174-175):
    resample 24000 to 8000, then mu-law encode. -/
def geminiToTwilioAudio (pcmBytes : List Nat) : Option (List Nat) :=
  (ratecv pcmBytes 24000 8000).bind lin2ulaw2

/-! ## Call session registry -/

/-- Mutable per-call session record as stored in session_store (main.py
    lines 86-101). -/
structure Session where
  callerPhone : String
  calledNumber : String
  companyName : String
  calendarId : String
  timezone : String
  systemPrompt : String
  clientRecordId : String
  callerName : String
  callerEmail : String
  appointmentBooked : Bool
  appointmentTime : String
  reason : String
  callSummary : String
deriving DecidableEq, Repr

/-- The in-memory session registry, keyed by Twilio CallSid. -/
abbrev Store := List (String × Session)

/-- Dictionary lookup; the none key models Python indexing with call_sid still
    None. -/
def lookupStore (store : Store) : Option String → Option Session
  | none => none
  | some k => (store.find? fun p => p.1 == k).map Prod.snd

/-- Dictionary key removal (the effect of pop). -/
def eraseStore (store : Store) (k : String) : Store :=
  store.filter fun p => !(p.1 == k)

/-- Dictionary assignment (replace or add). -/
def setStore (store : Store) (k : String) (v : Session) : Store :=
  eraseStore store k ++ [(k, v)]

/-! ## Tenant lookup and incoming-call webhook -/

/-- Body of a parsed JSON response from n8n Flow A; the per-field options model
    keys the .get calls in incoming_call may find missing. -/
structure ClientBody where
  success : Bool
  companyName : Option String
  calendarId : Option String
  timezone : Option String
  systemPrompt : Option String
  clientRecordId : Option String
deriving DecidableEq, Repr

/-- Outcome of the Flow A HTTP POST: a network-level exception, or a status
    code with a body (none for a body resp.json() cannot parse). -/
inductive LookupOutcome
  | exc
  | httpResp (status : Nat) (body : Option ClientBody)
deriving DecidableEq, Repr

/-- lookup_client (main.py lines 273-296): some config only for a 200 response
    whose body parses and carries a truthy success flag; any other response,
    parse failure or network error yields None. -/
def lookup_client (outcome : LookupOutcome) : Option ClientBody :=
  match outcome with
  | LookupOutcome.exc => none
  | LookupOutcome.httpResp status body =>
    if status = 200 then
      match body with
      | some b => if b.success then some b else none
      | none => none
    else none

/-- Session record built by incoming_call on lookup success (main.py lines
    86-101), with the .get defaults of the source. -/
def mkSession (callerPhone calledNumber : String) (cfg : ClientBody) : Session where
  callerPhone := callerPhone
  calledNumber := calledNumber
  companyName := cfg.companyName.getD ""
  calendarId := cfg.calendarId.getD ""
  timezone := cfg.timezone.getD "America/New_York"
  systemPrompt := cfg.systemPrompt.getD ""
  clientRecordId := cfg.clientRecordId.getD ""
  callerName := ""
  callerEmail := ""
  appointmentBooked := false
  appointmentTime := ""
  reason := ""
  callSummary := ""

/-- TwiML reply of /incoming-call: either say-sorry-then-hang-up, or connect a
    media stream to /ws carrying the CallSid as a custom parameter. -/
inductive CallResponse
  | apologyHangup
  | connectStream (host callSid : String)
deriving DecidableEq, Repr

/-- incoming_call (main.py lines 57-112): on lookup failure reply with the
    apology TwiML and store nothing; on success store the session and reply
    with the stream-connect TwiML. -/
def incoming_call (store : Store) (callerPhone calledNumber callSid host : String)
    (outcome : LookupOutcome) : Store × CallResponse :=
  match lookup_client outcome with
  | none => (store, CallResponse.apologyHangup)
  | some cfg =>
    (setStore store callSid (mkSession callerPhone calledNumber cfg),
     CallResponse.connectStream host callSid)

/-! ## Booking tool handler -/

/-- Arguments of the book_appointment tool call, each possibly omitted (the
    .get reads in handle_booking). -/
structure BookingArgs where
  callerName : Option String
  callerEmail : Option String
  date : Option String
  time : Option String
  reason : Option String
  durationMinutes : Option Int
deriving DecidableEq, Repr

/-- Result payload parsed from the Flow B response and relayed verbatim back
    to the agent; the model keeps the success flag and a message field. -/
structure BookingResult where
  success : Bool
  message : Option String
deriving DecidableEq, Repr

/-- Outcome of the Flow B HTTP POST: a network or parse exception, or a parsed
    result payload. -/
inductive BookingOutcome
  | exc
  | resp (result : BookingResult)
deriving DecidableEq, Repr

/-- Python str() of an optional string, as the f-string in handle_booking
    renders args.get values. -/
def pyStr : Option String → String
  | some s => s
  | none => "None"

/-- Fixed payload returned when anything in the handle_booking try block
    raises (main.py line 339). -/
def failureResult : BookingResult :=
  { success := false, message := some "Booking system temporarily unavailable." }

/-- Outcome fields merged into the session on booking success (main.py lines
    326-332). -/
def bookedUpdate (sess : Session) (args : BookingArgs) : Session :=
  { sess with
    appointmentBooked := true
    appointmentTime := pyStr args.date ++ " " ++ pyStr args.time
    callerName := args.callerName.getD ""
    callerEmail := args.callerEmail.getD ""
    reason := args.reason.getD "" }

/-- handle_booking (main.py lines 298-339).  On a successful external result
    the session keyed by call_sid is updated in place; indexing a missing key
    raises KeyError inside the try block, so the fixed failure payload is
    returned even though the external booking already happened. -/
def handle_booking (args : BookingArgs) (call_sid : Option String) (store : Store)
    (outcome : BookingOutcome) : BookingResult × Store :=
  match outcome with
  | BookingOutcome.exc => (failureResult, store)
  | BookingOutcome.resp result =>
    if result.success then
      match call_sid with
      | none => (failureResult, store)
      | some sid =>
        match lookupStore store (some sid) with
        | none => (failureResult, store)
        | some sess => (result, setStore store sid (bookedUpdate sess args))
    else (result, store)

/-! ## Post-call hand-off -/

/-- Payload POSTed to n8n Flow C (main.py lines 353-364). -/
structure PostCallPayload where
  callerName : String
  callerEmail : String
  callerPhone : String
  companyName : String
  appointmentTime : String
  reason : String
  callSummary : String
  clientTwilioPhone : String
  appointmentBooked : Bool
deriving DecidableEq, Repr

/-- Flow C payload from the popped session data; the .get defaults apply only
    when the pop found nothing and fell back to the empty dict, since stored
    sessions carry every key. -/
def postCallPayloadOf : Option Session → PostCallPayload
  | some d =>
    { callerName := d.callerName
      callerEmail := d.callerEmail
      callerPhone := d.callerPhone
      companyName := d.companyName
      appointmentTime := d.appointmentTime
      reason := d.reason
      callSummary := d.callSummary
      clientTwilioPhone := d.calledNumber
      appointmentBooked := d.appointmentBooked }
  | none =>
    { callerName := "Valued Customer"
      callerEmail := ""
      callerPhone := ""
      companyName := ""
      appointmentTime := ""
      reason := ""
      callSummary := "Call completed via AI Voice Receptionist."
      clientTwilioPhone := ""
      appointmentBooked := false }

/-- trigger_post_call (main.py lines 341-375): pop the session, then POST the
    payload built from whatever the pop returned.  postOk records whether the
    POST succeeded; a failure is only logged, so it affects nothing. -/
def trigger_post_call (store : Store) (call_sid : String) (_postOk : Bool) :
    Store × PostCallPayload :=
  (eraseStore store call_sid, postCallPayloadOf (lookupStore store (some call_sid)))

/-- Finalization path in the websocket handler's finally block (main.py lines
    205-208): a truthy call_sid that is still a key of the registry triggers
    the post-call hand-off.  The membership test and the pop execute with no
    await point between them, so the pair is atomic under asyncio
    scheduling. -/
def finalizeCall (store : Store) (call_sid : Option String) (postOk : Bool) :
    Store × List PostCallPayload :=
  match call_sid with
  | none => (store, [])
  | some s =>
    if s ≠ "" ∧ (lookupStore store (some s)).isSome then
      ((trigger_post_call store s postOk).1, [(trigger_post_call store s postOk).2])
    else (store, [])

/-! ## Websocket relay orchestrator -/

/-- Fields of a start event that the handler reads; streamSid none models a
    missing key, whose subscript raises KeyError. -/
structure StartData where
  streamSid : Option String
  customCallSid : Option String
  altCallSid : Option String
deriving DecidableEq, Repr

/-- One parsed Twilio stream message.  A media payload of none models a
    missing media or payload key, or undecodable base64 — each of which
    raises; a present payload carries the decoded bytes.  other stands for any
    JSON object whose event field matches none of the handled shapes. -/
inductive TwilioMsg
  | start (d : StartData)
  | media (payload : Option (List Nat))
  | stop
  | other
deriving DecidableEq, Repr

/-- One raw websocket text frame: either it parses as JSON to a message, or
    json.loads raises on it. -/
inductive RawMsg
  | ok (m : TwilioMsg)
  | bad
deriving DecidableEq, Repr

/-- One function call inside a Gemini tool-call event; outcome is the oracle
    for the Flow B round trip this call will trigger. -/
structure FunctionCall where
  id : String
  name : String
  args : BookingArgs
  outcome : BookingOutcome
deriving DecidableEq, Repr

/-- One event from gemini_session.receive(): optional audio bytes and an
    optional tool call holding a list of function calls. -/
structure GeminiEvent where
  data : Option (List Nat)
  toolCall : Option (List FunctionCall)
deriving DecidableEq, Repr

/-- Observable actions of one relay run, in order of occurrence. -/
inductive TraceEv
  | geminiOpened (prompt : String)
  | sentToGemini (blob : List Nat)
  | sentToPhone (mulaw : List Nat)
  | sentToolResponse (id name : String) (r : BookingResult)
  | phoneStopped
  | phoneEnded
  | agentEnded
  | errorEv
  | finalized (p : PostCallPayload)
deriving DecidableEq, Repr

/-- Effect of one message on the twilio_to_gemini loop. -/
inductive PhoneAct
  | send (blob : List Nat)
  | skip
  | stopPipeline
  | raise
deriving DecidableEq, Repr

/-- Per-message body of the twilio_to_gemini loop (main.py lines 154-167):
    media is decoded, converted and forwarded; stop breaks the loop; any other
    event value falls through both branches and is ignored. -/
def phoneMsgAct : TwilioMsg → PhoneAct
  | TwilioMsg.media none => PhoneAct.raise
  | TwilioMsg.media (some bytes) =>
    match twilioToGeminiAudio bytes with
    | some blob => PhoneAct.send blob
    | none => PhoneAct.raise
  | TwilioMsg.stop => PhoneAct.stopPipeline
  | _ => PhoneAct.skip

/-- Tool-call loop of gemini_to_twilio (main.py lines 183-197): only
    book_appointment calls are handled; each runs handle_booking and sends the
    function response back to the agent before the loop continues. -/
def processFunctionCalls : List FunctionCall → Option String → Store →
    List TraceEv × Store
  | [], _, store => ([], store)
  | fn :: rest, sid, store =>
    if fn.name = "book_appointment" then
      let hb := handle_booking fn.args sid store fn.outcome
      let pc := processFunctionCalls rest sid hb.2
      (TraceEv.sentToolResponse fn.id fn.name hb.1 :: pc.1, pc.2)
    else processFunctionCalls rest sid store

/-- Per-event body of the gemini_to_twilio loop (main.py lines 171-197):
    nonempty audio is converted and forwarded (a conversion error raises and
    aborts the event), then any tool call is processed.  The Bool reports
    whether the event raised. -/
def agentEventAct (e : GeminiEvent) (sid : Option String) (store : Store) :
    List TraceEv × Store × Bool :=
  let audio : List TraceEv × Bool :=
    match e.data with
    | some bs =>
      if bs = [] then ([], false)
      else
        match geminiToTwilioAudio bs with
        | some mulaw => ([TraceEv.sentToPhone mulaw], false)
        | none => ([], true)
    | none => ([], false)
  if audio.2 then (audio.1, store, true)
  else
    match e.toolCall with
    | some fns =>
      let pc := processFunctionCalls fns sid store
      (audio.1 ++ pc.1, pc.2, false)
    | none => (audio.1, store, false)

/-- Joint state of the two pipeline tasks while the gather join is pending. -/
structure RelayState where
  twMsgs : List RawMsg
  geEvents : List GeminiEvent
  twDone : Bool
  geDone : Bool
  errored : Bool
  store : Store
deriving DecidableEq, Repr

/-- One scheduling turn of the twilio_to_gemini task: the async generator
    _twilio_stream (main.py lines 213-220) ends on connection close or on any
    exception — including a json.loads failure — via its catch-all break; a
    stop event breaks the consuming loop; recognised shapes act per
    phoneMsgAct. -/
def phoneStep (st : RelayState) : List TraceEv × RelayState :=
  if st.twDone then ([], st)
  else
    match st.twMsgs with
    | [] => ([TraceEv.phoneEnded], { st with twDone := true })
    | RawMsg.bad :: rest =>
      ([TraceEv.phoneEnded], { st with twMsgs := rest, twDone := true })
    | RawMsg.ok m :: rest =>
      match phoneMsgAct m with
      | PhoneAct.send blob => ([TraceEv.sentToGemini blob], { st with twMsgs := rest })
      | PhoneAct.skip => ([], { st with twMsgs := rest })
      | PhoneAct.stopPipeline =>
        ([TraceEv.phoneStopped, TraceEv.phoneEnded],
         { st with twMsgs := rest, twDone := true })
      | PhoneAct.raise =>
        ([TraceEv.errorEv], { st with twMsgs := rest, errored := true })

/-- One scheduling turn of the gemini_to_twilio task: the event iterator ends
    when the agent session closes; an exception inside the body escapes the
    gather join. -/
def agentStep (st : RelayState) (sid : Option String) : List TraceEv × RelayState :=
  if st.geDone then ([], st)
  else
    match st.geEvents with
    | [] => ([TraceEv.agentEnded], { st with geDone := true })
    | e :: rest =>
      let act := agentEventAct e sid st.store
      if act.2.2 then
        (act.1 ++ [TraceEv.errorEv],
         { st with geEvents := rest, store := act.2.1, errored := true })
      else (act.1, { st with geEvents := rest, store := act.2.1 })

/-- Which pipeline task the cooperative scheduler runs next. -/
inductive Turn
  | phone
  | agent
deriving DecidableEq, Repr

/-- The asyncio.gather join (main.py line 199) returns only when BOTH pipeline
    coroutines have finished, while an exception raised in either propagates
    out of the await at once. -/
def relayDone (st : RelayState) : Bool :=
  st.errored || (st.twDone && st.geDone)

/-- Interleaved execution of the two pipeline tasks under an explicit
    cooperative schedule.  When the gather join completes or an exception
    escapes it, control reaches the finally block, which runs the finalization
    path; a schedule that ends earlier models an observation of a still-open
    call. -/
def relayExec (sid : Option String) (postOk : Bool) (sched : List Turn)
    (st : RelayState) : List TraceEv × Store :=
  if relayDone st then
    ((finalizeCall st.store sid postOk).2.map TraceEv.finalized,
     (finalizeCall st.store sid postOk).1)
  else
    match sched with
    | [] => ([], st.store)
    | Turn.phone :: rest =>
      let s := phoneStep st
      let r := relayExec sid postOk rest s.2
      (s.1 ++ r.1, r.2)
    | Turn.agent :: rest =>
      let s := agentStep st sid
      let r := relayExec sid postOk rest s.2
      (s.1 ++ r.1, r.2)

/-- CallSid extraction from a start event (main.py lines 128-131):
    customParameters callSid, or-else the top-level start callSid, or-else the
    empty string, with Python or-semantics on the first operand. -/
def callSidOf (d : StartData) : String :=
  match d.customCallSid with
  | some s => if s = "" then d.altCallSid.getD "" else s
  | none => d.altCallSid.getD ""

/-- What handling the first websocket message leaves behind. -/
inductive StartOutcome
  | err
  | info (callSid : Option String)
deriving DecidableEq, Repr

/-- Handling of the first websocket message (main.py lines 124-132): only a
    start event assigns call_sid; a missing streamSid key raises before the
    assignment; any non-start first message leaves call_sid as None and the
    handler proceeds. -/
def firstMsgOutcome : TwilioMsg → StartOutcome
  | TwilioMsg.start d =>
    match d.streamSid with
    | none => StartOutcome.err
    | some _ => StartOutcome.info (some (callSidOf d))
  | _ => StartOutcome.info none

/-- websocket_endpoint (main.py lines 117-208): read the first message, look
    up the session — falling back to the default system prompt when the
    registry has no entry — open the Gemini session with that prompt, run both
    pipelines under asyncio.gather, and on any exit run the finally-block
    finalization.  Paths that raise before call_sid is assigned skip
    finalization because its guard needs a truthy call_sid. -/
def websocket_endpoint (msgs : List RawMsg) (ge : List GeminiEvent)
    (sched : List Turn) (postOk : Bool) (store : Store) : List TraceEv × Store :=
  match msgs with
  | [] => ([], store)
  | RawMsg.bad :: _ => ([], store)
  | RawMsg.ok m :: rest =>
    match firstMsgOutcome m with
    | StartOutcome.err => ([], store)
    | StartOutcome.info callSid =>
      let prompt :=
        match lookupStore store callSid with
        | some sess => sess.systemPrompt
        | none => "You are a helpful receptionist."
      let r := relayExec callSid postOk sched
          { twMsgs := rest, geEvents := ge, twDone := false, geDone := false,
            errored := false, store := store }
      (TraceEv.geminiOpened prompt :: r.1, r.2)

/-- Whole-call composition: Twilio opens the media stream to /ws only when the
    returned TwiML holds a Connect/Stream verb; on the apology TwiML it speaks
    the message and hangs up, so no websocket run happens for that call. -/
def handleCall (store : Store) (callerPhone calledNumber callSid host : String)
    (outcome : LookupOutcome) (msgs : List RawMsg) (ge : List GeminiEvent)
    (sched : List Turn) (postOk : Bool) : CallResponse × List TraceEv × Store :=
  let ic := incoming_call store callerPhone calledNumber callSid host outcome
  match ic.2 with
  | CallResponse.apologyHangup => (CallResponse.apologyHangup, [], ic.1)
  | CallResponse.connectStream h c =>
    let r := websocket_endpoint msgs ge sched postOk ic.1
    (CallResponse.connectStream h c, r.1, r.2)

/-! ## Sequential pipeline denotations -/

/-- Sequential denotation of the caller-to-agent pipeline alone: the audio
    blobs sent to the agent, and whether the loop body raised. -/
def twilio_to_gemini_run : List RawMsg → List (List Nat) × Bool
  | [] => ([], false)
  | RawMsg.bad :: _ => ([], false)
  | RawMsg.ok m :: rest =>
    match phoneMsgAct m with
    | PhoneAct.send blob =>
      let r := twilio_to_gemini_run rest
      (blob :: r.1, r.2)
    | PhoneAct.skip => twilio_to_gemini_run rest
    | PhoneAct.stopPipeline => ([], false)
    | PhoneAct.raise => ([], true)

/-- Audio payloads among a trace fragment's events. -/
def phoneSendOf : TraceEv → Option (List Nat)
  | TraceEv.sentToPhone b => some b
  | _ => none

/-- Sequential denotation of the agent-to-caller pipeline alone: the mu-law
    payloads sent back to the phone leg, the final registry, and whether the
    loop body raised. -/
def gemini_to_twilio_run : List GeminiEvent → Option String → Store →
    List (List Nat) × Store × Bool
  | [], _, store => ([], store, false)
  | e :: rest, sid, store =>
    let act := agentEventAct e sid store
    if act.2.2 then (act.1.filterMap phoneSendOf, act.2.1, true)
    else
      let r := gemini_to_twilio_run rest sid act.2.1
      (act.1.filterMap phoneSendOf ++ r.1, r.2.1, r.2.2)

/-- Media payloads the caller-to-agent loop reaches: the stream stops at its
    end, at a parse failure, at a stop event, or at a payload whose extraction
    raises. -/
def mediaPayloadsUpToStop : List RawMsg → List (List Nat)
  | [] => []
  | RawMsg.bad :: _ => []
  | RawMsg.ok (TwilioMsg.media (some b)) :: rest => b :: mediaPayloadsUpToStop rest
  | RawMsg.ok (TwilioMsg.media none) :: _ => []
  | RawMsg.ok TwilioMsg.stop :: _ => []
  | RawMsg.ok _ :: rest => mediaPayloadsUpToStop rest

/-- Nonempty audio chunks the agent-to-caller loop reaches: the loop stops
    after a chunk whose conversion raises, which happens exactly on an odd
    byte length. -/
def audioChunksUpToError : List GeminiEvent → List (List Nat)
  | [] => []
  | e :: rest =>
    match e.data with
    | some bs =>
      if bs = [] then audioChunksUpToError rest
      else if bs.length % 2 = 0 then bs :: audioChunksUpToError rest
      else []
    | none => audioChunksUpToError rest

/-! ## Trace observations -/

def isSentToGemini : TraceEv → Bool
  | TraceEv.sentToGemini _ => true
  | _ => false

def isSentToPhone : TraceEv → Bool
  | TraceEv.sentToPhone _ => true
  | _ => false

def isGeminiOpened : TraceEv → Bool
  | TraceEv.geminiOpened _ => true
  | _ => false

def isFinalized : TraceEv → Bool
  | TraceEv.finalized _ => true
  | _ => false

def isPhoneEnded : TraceEv → Bool
  | TraceEv.phoneEnded => true
  | _ => false

def isAgentEnded : TraceEv → Bool
  | TraceEv.agentEnded => true
  | _ => false

def isErrorEv : TraceEv → Bool
  | TraceEv.errorEv => true
  | _ => false

/-- Claim observation: some agent audio is forwarded to the phone leg after
    the phone leg's stop event was observed. -/
def agentOutputAfterStop : List TraceEv → Bool
  | [] => false
  | TraceEv.phoneStopped :: rest => rest.any isSentToPhone || agentOutputAfterStop rest
  | _ :: rest => agentOutputAfterStop rest

/-! ## Helper lemmas -/

theorem find?_filter_ne_self (l : List (String × Session)) (k : String) :
    ((l.filter fun p => !(p.1 == k)).find? fun p => p.1 == k) = none := by
  induction l with
  | nil => rfl
  | cons p rest ih =>
    by_cases h : p.1 = k
    · simp [List.filter_cons, h, ih]
    · simp [List.filter_cons, h, List.find?_cons, ih]

theorem lookup_erase_self (store : Store) (k : String) :
    lookupStore (eraseStore store k) (some k) = none := by
  simp [lookupStore, eraseStore, find?_filter_ne_self]

theorem lookup_set_self (store : Store) (k : String) (v : Session) :
    lookupStore (setStore store k v) (some k) = some v := by
  have h1 := find?_filter_ne_self store k
  simp [lookupStore, setStore, eraseStore, List.find?_append, h1]

theorem bytesOfInt16_length (v : Int) : (bytesOfInt16 v).length = 2 := rfl

theorem length_flatMap_pair {α : Type} (l : List α) (f : α → Int) :
    (l.flatMap fun a => bytesOfInt16 (f a)).length = 2 * l.length := by
  induction l with
  | nil => rfl
  | cons x xs ih =>
    rw [List.flatMap_cons, List.length_append, ih, bytesOfInt16_length, List.length_cons]
    omega

theorem ulaw2lin2_length (b : List Nat) : (ulaw2lin2 b).length = 2 * b.length :=
  length_flatMap_pair b _

theorem twilioToGeminiAudio_isSome (b : List Nat) :
    (twilioToGeminiAudio b).isSome = true := by
  simp [twilioToGeminiAudio, ratecv, ulaw2lin2_length, Nat.mul_mod_right]

theorem ratecv_length_even (frag : List Nat) (inrate outrate : Nat) (out : List Nat)
    (h : ratecv frag inrate outrate = some out) : out.length % 2 = 0 := by
  by_cases h1 : frag.length % 2 = 0
  · by_cases h2 : inrate = 0 ∨ outrate = 0
    · simp [ratecv, h1, h2] at h
    · unfold ratecv at h
      rw [if_pos h1, if_neg h2] at h
      simp only [Option.some.injEq] at h
      subst h
      simp only [length_flatMap_pair]
      exact Nat.mul_mod_right 2 _
  · simp [ratecv, h1] at h

theorem ratecv_isSome (frag : List Nat) (inrate outrate : Nat)
    (h : frag.length % 2 = 0) (hi : inrate ≠ 0) (ho : outrate ≠ 0) :
    (ratecv frag inrate outrate).isSome = true := by
  unfold ratecv
  rw [if_pos h, if_neg (by simp [hi, ho])]
  rfl

theorem geminiToTwilioAudio_even_some (bs : List Nat) (h : bs.length % 2 = 0) :
    ∃ m, geminiToTwilioAudio bs = some m := by
  obtain ⟨out, hout⟩ :=
    Option.isSome_iff_exists.mp (ratecv_isSome bs 24000 8000 h (by decide) (by decide))
  have heven := ratecv_length_even bs 24000 8000 out hout
  refine ⟨(samplesOfBytes out).map fun s => st_14linear2ulaw (Int.fdiv s 4), ?_⟩
  simp [geminiToTwilioAudio, hout, lin2ulaw2, heven]

theorem geminiToTwilioAudio_odd_none (bs : List Nat) (h : ¬ bs.length % 2 = 0) :
    geminiToTwilioAudio bs = none := by
  simp [geminiToTwilioAudio, ratecv, h]

theorem handle_booking_absent (args : BookingArgs) (sid : Option String) (store : Store)
    (outcome : BookingOutcome) (h : lookupStore store sid = none) :
    (handle_booking args sid store outcome).2 = store := by
  cases outcome with
  | exc => rfl
  | resp result =>
    by_cases hs : result.success = true
    · cases sid with
      | none => simp [handle_booking, hs]
      | some s => simp [handle_booking, hs, h]
    · simp [handle_booking, hs]

theorem processFunctionCalls_absent (fns : List FunctionCall) (sid : Option String)
    (store : Store) (h : lookupStore store sid = none) :
    (processFunctionCalls fns sid store).2 = store := by
  induction fns generalizing store with
  | nil => rfl
  | cons fn rest ih =>
    by_cases hn : fn.name = "book_appointment"
    · have hb := handle_booking_absent fn.args sid store fn.outcome h
      simp only [processFunctionCalls, hn, if_true, hb]
      exact ih store h
    · simp only [processFunctionCalls, hn, if_false]
      exact ih store h

theorem processFunctionCalls_events (fns : List FunctionCall) (sid : Option String)
    (store : Store) :
    ((processFunctionCalls fns sid store).1.any isFinalized) = false ∧
    ((processFunctionCalls fns sid store).1.any isPhoneEnded) = false ∧
    ((processFunctionCalls fns sid store).1.any isAgentEnded) = false ∧
    ((processFunctionCalls fns sid store).1.any isErrorEv) = false ∧
    ((processFunctionCalls fns sid store).1.filterMap phoneSendOf) = [] := by
  induction fns generalizing store with
  | nil => simp [processFunctionCalls]
  | cons fn rest ih =>
    by_cases hn : fn.name = "book_appointment"
    · simp [processFunctionCalls, hn, isFinalized, isPhoneEnded, isAgentEnded, isErrorEv,
        phoneSendOf, ih]
    · simp [processFunctionCalls, hn, ih]

theorem agentEventAct_events (e : GeminiEvent) (sid : Option String) (store : Store) :
    ((agentEventAct e sid store).1.any isFinalized) = false ∧
    ((agentEventAct e sid store).1.any isPhoneEnded) = false ∧
    ((agentEventAct e sid store).1.any isAgentEnded) = false ∧
    ((agentEventAct e sid store).1.any isErrorEv) = false := by
  obtain ⟨dat, tc⟩ := e
  cases dat with
  | none =>
    cases tc with
    | none => simp [agentEventAct]
    | some fns =>
      have h := processFunctionCalls_events fns sid store
      simp [agentEventAct, h.1, h.2.1, h.2.2.1, h.2.2.2.1]
  | some bs =>
    by_cases hbs : bs = []
    · cases tc with
      | none => simp [agentEventAct, hbs]
      | some fns =>
        have h := processFunctionCalls_events fns sid store
        simp [agentEventAct, hbs, h.1, h.2.1, h.2.2.1, h.2.2.2.1]
    · cases hconv : geminiToTwilioAudio bs with
      | none => simp [agentEventAct, hbs, hconv]
      | some m =>
        cases tc with
        | none => simp [agentEventAct, hbs, hconv, isFinalized, isPhoneEnded, isAgentEnded, isErrorEv]
        | some fns =>
          have h := processFunctionCalls_events fns sid store
          simp [agentEventAct, hbs, hconv, isFinalized, isPhoneEnded, isAgentEnded, isErrorEv,
            h.1, h.2.1, h.2.2.1, h.2.2.2.1]

theorem agentEventAct_absent (e : GeminiEvent) (sid : Option String) (store : Store)
    (h : lookupStore store sid = none) :
    (agentEventAct e sid store).2.1 = store := by
  obtain ⟨dat, tc⟩ := e
  cases dat with
  | none =>
    cases tc with
    | none => rfl
    | some fns => simp [agentEventAct, processFunctionCalls_absent fns sid store h]
  | some bs =>
    by_cases hbs : bs = []
    · cases tc with
      | none => simp [agentEventAct, hbs]
      | some fns => simp [agentEventAct, hbs, processFunctionCalls_absent fns sid store h]
    · cases hconv : geminiToTwilioAudio bs with
      | none => simp [agentEventAct, hbs, hconv]
      | some m =>
        cases tc with
        | none => simp [agentEventAct, hbs, hconv]
        | some fns => simp [agentEventAct, hbs, hconv, processFunctionCalls_absent fns sid store h]

theorem phoneStep_facts (st : RelayState) :
    (phoneStep st).2.geDone = st.geDone ∧
    (phoneStep st).2.geEvents = st.geEvents ∧
    (phoneStep st).2.store = st.store ∧
    ((phoneStep st).1.any isFinalized) = false ∧
    ((phoneStep st).1.any isAgentEnded) = false ∧
    ((phoneStep st).2.twDone = true → st.twDone = true ∨ ((phoneStep st).1.any isPhoneEnded) = true) ∧
    ((phoneStep st).2.errored = true → st.errored = true ∨ ((phoneStep st).1.any isErrorEv) = true) := by
  by_cases h : st.twDone
  · simp [phoneStep, h]
  · cases hm : st.twMsgs with
    | nil => simp [phoneStep, h, hm, isFinalized, isAgentEnded, isPhoneEnded, isErrorEv]
    | cons r rest =>
      cases r with
      | bad => simp [phoneStep, h, hm, isFinalized, isAgentEnded, isPhoneEnded, isErrorEv]
      | ok m =>
        cases hact : phoneMsgAct m <;>
          simp [phoneStep, h, hm, hact, isFinalized, isAgentEnded, isPhoneEnded, isErrorEv]

theorem agentStep_facts (st : RelayState) (sid : Option String) :
    (agentStep st sid).2.twDone = st.twDone ∧
    (agentStep st sid).2.twMsgs = st.twMsgs ∧
    ((agentStep st sid).1.any isFinalized) = false ∧
    ((agentStep st sid).1.any isPhoneEnded) = false ∧
    ((agentStep st sid).2.geDone = true → st.geDone = true ∨ ((agentStep st sid).1.any isAgentEnded) = true) ∧
    ((agentStep st sid).2.errored = true → st.errored = true ∨ ((agentStep st sid).1.any isErrorEv) = true) := by
  by_cases h : st.geDone
  · simp [agentStep, h]
  · cases hm : st.geEvents with
    | nil => simp [agentStep, h, hm, isFinalized, isPhoneEnded, isAgentEnded, isErrorEv]
    | cons e rest =>
      have he := agentEventAct_events e sid st.store
      by_cases hr : (agentEventAct e sid st.store).2.2 = true
      · simp [agentStep, h, hm, hr, he.1, he.2.1, he.2.2.1, he.2.2.2,
          List.any_append, isFinalized, isPhoneEnded, isAgentEnded, isErrorEv]
      · simp [agentStep, h, hm, hr, he.1, he.2.1, he.2.2.1, he.2.2.2]

theorem agentStep_absent (st : RelayState) (sid : Option String)
    (h : lookupStore st.store sid = none) :
    (agentStep st sid).2.store = st.store := by
  by_cases hg : st.geDone
  · simp [agentStep, hg]
  · cases hm : st.geEvents with
    | nil => simp [agentStep, hg, hm]
    | cons e rest =>
      have ha := agentEventAct_absent e sid st.store h
      by_cases hr : (agentEventAct e sid st.store).2.2 = true
      · simp [agentStep, hg, hm, hr, ha]
      · simp [agentStep, hg, hm, hr, ha]

theorem finalizeCall_absent (store : Store) (sid : Option String) (postOk : Bool)
    (h : lookupStore store sid = none) :
    finalizeCall store sid postOk = (store, []) := by
  cases sid with
  | none => rfl
  | some s => simp [finalizeCall, h]

/-! ## Concrete scenario data -/

/-- A stored session used by the concrete runs. -/
def demoSession : Session :=
  { callerPhone := "+15550001", calledNumber := "+15550002", companyName := "Acme",
    calendarId := "cal1", timezone := "UTC", systemPrompt := "Be nice.",
    clientRecordId := "rec1", callerName := "", callerEmail := "",
    appointmentBooked := false, appointmentTime := "", reason := "", callSummary := "" }

def demoStart : StartData :=
  { streamSid := some "MS1", customCallSid := some "CA1", altCallSid := none }

/-- Phone leg: start, then stop — while one agent audio chunk is pending. -/
def demoMsgs : List RawMsg := [RawMsg.ok (TwilioMsg.start demoStart), RawMsg.ok TwilioMsg.stop]

def demoEvents : List GeminiEvent := [{ data := some [0, 0], toolCall := none }]

def demoSched : List Turn := [Turn.phone, Turn.agent, Turn.agent]

def demoStore : Store := [("CA1", demoSession)]

def parseFailStart : StartData :=
  { streamSid := some "MS2", customCallSid := some "CA2", altCallSid := none }

/-- Phone leg: start, then a frame json.loads cannot parse, then a valid media
    frame. -/
def parseFailMsgs : List RawMsg :=
  [RawMsg.ok (TwilioMsg.start parseFailStart), RawMsg.bad,
   RawMsg.ok (TwilioMsg.media (some [5]))]

def unknownStart : StartData :=
  { streamSid := some "MS9", customCallSid := some "CA9", altCallSid := none }

/-- The CA123 scenario tenant of the spec, timezone UTC. -/
def sessionUTC : Session :=
  { callerPhone := "+15551212", calledNumber := "+15550100", companyName := "Acme Clinic",
    calendarId := "cal-123", timezone := "UTC", systemPrompt := "Greet politely.",
    clientRecordId := "rec-123", callerName := "", callerEmail := "",
    appointmentBooked := false, appointmentTime := "", reason := "", callSummary := "" }

def storeCA123 : Store := [("CA123", sessionUTC)]

/-- Booking-tool argument set with every mandatory field present. -/
def mkArgs (nm em dt tm rs : String) (dur : Option Int) : BookingArgs :=
  { callerName := some nm, callerEmail := some em, date := some dt, time := some tm,
    reason := some rs, durationMinutes := dur }

/-! ## Claim theorems -/

/-- C10: the post-call finalization removes the session from the registry
    before attempting the hand-off POST — the payload is what was read at
    removal time — and the removal stands even when the POST fails, since the
    failure is only logged and nothing is rolled back or retried. -/
theorem C10_removal_survives_handoff_failure (store : Store) (sid : String) (postOk : Bool) :
    (trigger_post_call store sid postOk).1 = eraseStore store sid ∧
    lookupStore (trigger_post_call store sid postOk).1 (some sid) = none ∧
    (trigger_post_call store sid true).1 = (trigger_post_call store sid false).1 ∧
    (trigger_post_call store sid postOk).2 = postCallPayloadOf (lookupStore store (some sid)) :=
  ⟨rfl, lookup_erase_self store sid, rfl, rfl⟩

/-- C9: when the external booking POST reports success but the call identifier
    is absent from the registry at merge time, the in-place update raises
    KeyError inside the try block, so handle_booking returns the fixed failure
    payload to the agent — success false with the temporarily-unavailable
    message — even though the external booking was already performed. -/
theorem C9_booking_success_without_session (args : BookingArgs) (sid : Option String)
    (store : Store) (result : BookingResult)
    (hs : result.success = true) (habs : lookupStore store sid = none) :
    handle_booking args sid store (BookingOutcome.resp result) = (failureResult, store) ∧
    failureResult.success = false ∧
    failureResult.message = some "Booking system temporarily unavailable." := by
  refine ⟨?_, rfl, rfl⟩
  cases sid with
  | none => simp [handle_booking, hs]
  | some s => simp [handle_booking, hs, habs]

theorem C9_witness :
    handle_booking (mkArgs "Ava" "a@b.com" "2025-03-01" "14:00" "consult" none)
        (some "CA404") [] (BookingOutcome.resp { success := true, message := none }) =
      (failureResult, []) :=
  (C9_booking_success_without_session
    (mkArgs "Ava" "a@b.com" "2025-03-01" "14:00" "consult" none) (some "CA404") []
    { success := true, message := none } rfl rfl).1

/-- C2: invoking the finalization path twice for the same call identifier
    performs the external hand-off exactly once — the first keyed removal
    makes the POST, and the second invocation finds the session already gone
    and is a no-op that also leaves the registry untouched. -/
theorem C2_handoff_idempotent (store : Store) (sid : String) (ok1 ok2 : Bool)
    (hne : sid ≠ "") (hmem : (lookupStore store (some sid)).isSome = true) :
    (finalizeCall store (some sid) ok1).2.length = 1 ∧
    (finalizeCall (finalizeCall store (some sid) ok1).1 (some sid) ok2).2 = [] ∧
    (finalizeCall (finalizeCall store (some sid) ok1).1 (some sid) ok2).1 =
      (finalizeCall store (some sid) ok1).1 := by
  have hc : sid ≠ "" ∧ (lookupStore store (some sid)).isSome := ⟨hne, by simp [hmem]⟩
  have h1 : finalizeCall store (some sid) ok1 =
      ((trigger_post_call store sid ok1).1, [(trigger_post_call store sid ok1).2]) := by
    simp only [finalizeCall]
    rw [if_pos hc]
  have h2 : lookupStore (trigger_post_call store sid ok1).1 (some sid) = none :=
    lookup_erase_self store sid
  have h3 : finalizeCall (trigger_post_call store sid ok1).1 (some sid) ok2 =
      ((trigger_post_call store sid ok1).1, []) :=
    finalizeCall_absent _ _ _ h2
  have hfst : (finalizeCall store (some sid) ok1).1 = (trigger_post_call store sid ok1).1 := by
    rw [h1]
  have hsnd : (finalizeCall store (some sid) ok1).2 = [(trigger_post_call store sid ok1).2] := by
    rw [h1]
  refine ⟨?_, ?_, ?_⟩
  · rw [hsnd]
    rfl
  · rw [hfst, h3]
  · rw [hfst, h3]

theorem C2_witness :
    (finalizeCall demoStore (some "CA1") true).2.length = 1 ∧
    (finalizeCall (finalizeCall demoStore (some "CA1") true).1 (some "CA1") false).2 = [] :=
  ⟨(C2_handoff_idempotent demoStore "CA1" true false (by decide) rfl).1,
   (C2_handoff_idempotent demoStore "CA1" true false (by decide) rfl).2.1⟩

/-- C7: when the tenant lookup fails — network error, non-200 status,
    unparseable body, or a false success flag — the caller gets the spoken
    apology-and-hangup TwiML, whose lack of a Connect/Stream verb means no
    websocket relay runs and no agent session is ever opened for the call, and
    the registry is left unchanged so no Call Session is stored. -/
theorem C7_lookup_failure_rejects_call (store : Store)
    (callerPhone calledNumber callSid host : String) (outcome : LookupOutcome)
    (msgs : List RawMsg) (ge : List GeminiEvent) (sched : List Turn) (postOk : Bool)
    (hfail : outcome = LookupOutcome.exc ∨
      (∃ status body, outcome = LookupOutcome.httpResp status body ∧ status ≠ 200) ∨
      (∃ status, outcome = LookupOutcome.httpResp status none) ∨
      (∃ status b, outcome = LookupOutcome.httpResp status (some b) ∧ b.success = false)) :
    handleCall store callerPhone calledNumber callSid host outcome msgs ge sched postOk =
      (CallResponse.apologyHangup, ([] : List TraceEv), store) := by
  have hnone : lookup_client outcome = none := by
    rcases hfail with rfl | ⟨s, b, rfl, hs⟩ | ⟨s, rfl⟩ | ⟨s, b, rfl, hb⟩
    · rfl
    · simp [lookup_client, hs]
    · simp only [lookup_client]
      split <;> rfl
    · simp only [lookup_client]
      split
      · simp [hb]
      · rfl
  simp [handleCall, incoming_call, hnone]

theorem C7_witness :
    handleCall [] "+15550003" "+15550004" "CA7" "example.org" LookupOutcome.exc
      [] [] [] true = (CallResponse.apologyHangup, ([] : List TraceEv), []) :=
  C7_lookup_failure_rejects_call [] "+15550003" "+15550004" "CA7" "example.org"
    LookupOutcome.exc [] [] [] true (Or.inl rfl)

/-- C8: when the session exists and the external booking handler reports
    success, the session outcome fields are updated — appointmentBooked true,
    appointmentTime the string "date time", and contact name, reply address
    and reason taken from the tool arguments — and the later post-call
    hand-off payload carries exactly those values. -/
theorem C8_booking_updates_session (store : Store) (sid : String) (sess : Session)
    (nm em dt tm rs : String) (dur : Option Int) (result : BookingResult) (postOk : Bool)
    (hlook : lookupStore store (some sid) = some sess)
    (hs : result.success = true) :
    (handle_booking (mkArgs nm em dt tm rs dur) (some sid) store
        (BookingOutcome.resp result)).1 = result ∧
    lookupStore (handle_booking (mkArgs nm em dt tm rs dur) (some sid) store
        (BookingOutcome.resp result)).2 (some sid) =
      some { sess with
             appointmentBooked := true
             appointmentTime := dt ++ " " ++ tm
             callerName := nm
             callerEmail := em
             reason := rs } ∧
    (trigger_post_call (handle_booking (mkArgs nm em dt tm rs dur) (some sid) store
        (BookingOutcome.resp result)).2 sid postOk).2 =
      { callerName := nm, callerEmail := em, callerPhone := sess.callerPhone,
        companyName := sess.companyName, appointmentTime := dt ++ " " ++ tm,
        reason := rs, callSummary := sess.callSummary,
        clientTwilioPhone := sess.calledNumber, appointmentBooked := true } := by
  have hbk : handle_booking (mkArgs nm em dt tm rs dur) (some sid) store
      (BookingOutcome.resp result) =
      (result, setStore store sid (bookedUpdate sess (mkArgs nm em dt tm rs dur))) := by
    simp [handle_booking, hs, hlook]
  refine ⟨by rw [hbk], ?_, ?_⟩
  · rw [hbk]
    simp only [lookup_set_self]
    rfl
  · rw [hbk]
    simp only [trigger_post_call, lookup_set_self]
    rfl

theorem C8_witness :
    (trigger_post_call (handle_booking (mkArgs "Ava" "a@b.com" "2025-03-01" "14:00" "consult" none)
        (some "CA123") storeCA123
        (BookingOutcome.resp { success := true, message := none })).2 "CA123" true).2.appointmentBooked
      = true ∧
    (trigger_post_call (handle_booking (mkArgs "Ava" "a@b.com" "2025-03-01" "14:00" "consult" none)
        (some "CA123") storeCA123
        (BookingOutcome.resp { success := true, message := none })).2 "CA123" true).2.appointmentTime
      = "2025-03-01 14:00" := by
  have h := C8_booking_updates_session storeCA123 "CA123" sessionUTC
    "Ava" "a@b.com" "2025-03-01" "14:00" "consult" none { success := true, message := none }
    true rfl rfl
  exact ⟨by simp [h.2.2], by simp [h.2.2]⟩

/-- C4 counterexample: on the odd-length input [0], the agent-to-caller
    conversion raises (none) instead of returning an empty result, and the
    caller-to-agent conversion treats the lone byte as a whole companded
    sample and returns a nonempty conversion — so neither direction rejects
    odd input by returning empty. -/
theorem C4_counterexample :
    geminiToTwilioAudio [0] = none ∧ twilioToGeminiAudio [0] = some [132, 130] := by
  constructor
  · rfl
  · rfl

/-- C4 amended: a zero-length input yields an empty result without raising in
    both directions; the caller-to-agent direction accepts any byte length
    (every byte is one companded sample) and never raises; the agent-to-caller
    direction raises on an odd byte length rather than returning empty. -/
theorem C4_amended_audio_failure (b : List Nat) :
    twilioToGeminiAudio [] = some [] ∧
    geminiToTwilioAudio [] = some [] ∧
    (twilioToGeminiAudio b).isSome = true ∧
    (b.length % 2 = 1 → geminiToTwilioAudio b = none) :=
  ⟨rfl, rfl, twilioToGeminiAudio_isSome b,
   fun h => geminiToTwilioAudio_odd_none b (by omega)⟩

theorem C4_witness :
    (twilioToGeminiAudio [0]).isSome = true ∧ geminiToTwilioAudio [0] = none :=
  ⟨(C4_amended_audio_failure [0]).2.2.1, (C4_amended_audio_failure [0]).2.2.2 rfl⟩

/-- C3 counterexample: a message json.loads cannot parse does not get dropped
    with the call continuing — it terminates the phone-side stream, so the
    valid media frame queued after it is never forwarded to the agent: the
    whole run sends nothing to the agent. -/
theorem C3_counterexample :
    (websocket_endpoint parseFailMsgs [] [Turn.phone, Turn.phone, Turn.agent] true []).1 =
      [TraceEv.geminiOpened "You are a helpful receptionist.", TraceEv.phoneEnded,
       TraceEv.agentEnded] ∧
    ((websocket_endpoint parseFailMsgs [] [Turn.phone, Turn.phone, Turn.agent] true []).1.any
      isSentToGemini) = false := by
  constructor
  · rfl
  · rfl

/-- C3 amended: malformed phone-leg input splits into three behaviors, none of
    which is drop-log-continue for every message.  (a) A frame that parses as
    JSON but whose event field matches neither media nor stop is silently
    dropped and the pipeline continues with the rest.  (b) A frame that fails
    JSON parsing terminates the stream exactly like a disconnect — the
    remaining messages are never consumed.  (c) A media-typed frame whose
    media/payload extraction raises (missing key, or undecodable base64)
    raises inside the twilio_to_gemini body, outside the generator's
    try/except: the pipeline reports the exception instead of continuing, the
    exception escapes the gather join, and the call is finalized at once with
    the agent pipeline cancelled un-drained — one such message tears down the
    whole call. -/
theorem C3_amended_malformed_handling (m : TwilioMsg) (rest : List RawMsg)
    (hskip : phoneMsgAct m = PhoneAct.skip) :
    twilio_to_gemini_run (RawMsg.ok m :: rest) = twilio_to_gemini_run rest ∧
    twilio_to_gemini_run (RawMsg.bad :: rest) = twilio_to_gemini_run [] ∧
    (∀ rest2 : List RawMsg,
      twilio_to_gemini_run (RawMsg.ok (TwilioMsg.media none) :: rest2) = ([], true)) ∧
    (∀ (sid : Option String) (postOk : Bool) (sched2 : List Turn) (rest2 : List RawMsg)
        (ge : List GeminiEvent) (gd : Bool) (store : Store),
      relayExec sid postOk (Turn.phone :: sched2)
          { twMsgs := RawMsg.ok (TwilioMsg.media none) :: rest2, geEvents := ge,
            twDone := false, geDone := gd, errored := false, store := store } =
        (TraceEv.errorEv :: (finalizeCall store sid postOk).2.map TraceEv.finalized,
         (finalizeCall store sid postOk).1)) := by
  refine ⟨?_, rfl, fun rest2 => rfl, ?_⟩
  · simp [twilio_to_gemini_run, hskip]
  · intro sid postOk sched2 rest2 ge gd store
    rw [relayExec.eq_def]
    simp only [relayDone, phoneStep, phoneMsgAct, Bool.false_and, Bool.or_false,
      Bool.false_eq_true, if_false]
    rw [relayExec.eq_def]
    simp [relayDone]

theorem C3_witness :
    twilio_to_gemini_run [RawMsg.ok TwilioMsg.other, RawMsg.ok (TwilioMsg.media (some [0]))] =
      twilio_to_gemini_run [RawMsg.ok (TwilioMsg.media (some [0]))] ∧
    twilio_to_gemini_run [RawMsg.bad, RawMsg.ok (TwilioMsg.media (some [0]))] =
      twilio_to_gemini_run [] ∧
    twilio_to_gemini_run [RawMsg.ok (TwilioMsg.media none)] = ([], true) ∧
    relayExec (some "CA1") true [Turn.phone, Turn.agent]
        { twMsgs := [RawMsg.ok (TwilioMsg.media none)], geEvents := demoEvents,
          twDone := false, geDone := false, errored := false, store := demoStore } =
      (TraceEv.errorEv :: (finalizeCall demoStore (some "CA1") true).2.map TraceEv.finalized,
       (finalizeCall demoStore (some "CA1") true).1) := by
  have h := C3_amended_malformed_handling TwilioMsg.other
    [RawMsg.ok (TwilioMsg.media (some [0]))] rfl
  exact ⟨h.1, h.2.1, h.2.2.1 [], h.2.2.2 (some "CA1") true [Turn.agent] [] demoEvents false demoStore⟩

/-- A relay run whose registry has no entry for the call identifier never
    fires the hand-off: booking updates cannot create the missing entry, and
    the finalize guard needs membership. -/
theorem relay_no_finalize (sid : Option String) (postOk : Bool) (sched : List Turn)
    (st : RelayState) (h : lookupStore st.store sid = none) :
    ((relayExec sid postOk sched st).1.any isFinalized) = false := by
  induction sched generalizing st with
  | nil =>
    rw [relayExec.eq_def]
    by_cases hd : relayDone st = true
    · simp [hd, finalizeCall_absent st.store sid postOk h]
    · simp [hd]
  | cons t rest ih =>
    rw [relayExec.eq_def]
    by_cases hd : relayDone st = true
    · simp [hd, finalizeCall_absent st.store sid postOk h]
    · cases t with
      | phone =>
        have hf := phoneStep_facts st
        have hst : lookupStore (phoneStep st).2.store sid = none := by
          rw [hf.2.2.1]
          exact h
        simp [hd, List.any_append, hf.2.2.2.1, ih _ hst]
      | agent =>
        have ha := agentStep_facts st sid
        have hstore := agentStep_absent st sid h
        have hst : lookupStore (agentStep st sid).2.store sid = none := by
          rw [hstore]
          exact h
        simp [hd, List.any_append, ha.2.2.1, ih _ hst]

/-- A list of hand-off events contains none of the pipeline events. -/
theorem any_map_finalized (posts : List PostCallPayload) (p : TraceEv → Bool)
    (hp : ∀ x, p (TraceEv.finalized x) = false) :
    ((posts.map TraceEv.finalized).any p) = false := by
  induction posts with
  | nil => rfl
  | cons a l ih => simp [hp, ih]

/-- The gather join fires the hand-off only once both pipelines are done or an
    exception escaped; stated over the events visible in the trace suffix. -/
theorem relay_finalized_needs_both (sid : Option String) (postOk : Bool) (sched : List Turn)
    (st : RelayState)
    (hfin : ((relayExec sid postOk sched st).1.any isFinalized) = true) :
    st.errored = true ∨ ((relayExec sid postOk sched st).1.any isErrorEv) = true ∨
    ((st.twDone = true ∨ ((relayExec sid postOk sched st).1.any isPhoneEnded) = true) ∧
     (st.geDone = true ∨ ((relayExec sid postOk sched st).1.any isAgentEnded) = true)) := by
  induction sched generalizing st with
  | nil =>
    rw [relayExec.eq_def] at hfin ⊢
    by_cases hd : relayDone st = true
    · cases herr : st.errored with
      | true => exact Or.inl rfl
      | false =>
        have hboth : st.twDone = true ∧ st.geDone = true := by
          unfold relayDone at hd
          rw [herr] at hd
          simpa using hd
        exact Or.inr (Or.inr ⟨Or.inl hboth.1, Or.inl hboth.2⟩)
    · simp [hd] at hfin
  | cons t rest ih =>
    rw [relayExec.eq_def] at hfin ⊢
    by_cases hd : relayDone st = true
    · cases herr : st.errored with
      | true => exact Or.inl rfl
      | false =>
        have hboth : st.twDone = true ∧ st.geDone = true := by
          unfold relayDone at hd
          rw [herr] at hd
          simpa using hd
        exact Or.inr (Or.inr ⟨Or.inl hboth.1, Or.inl hboth.2⟩)
    · cases t with
      | phone =>
        rw [if_neg hd] at hfin ⊢
        simp only [List.any_append, Bool.or_eq_true] at hfin ⊢
        have hf := phoneStep_facts st
        rcases hfin with hevs | htr
        · rw [hf.2.2.2.1] at hevs
          exact absurd hevs (by simp)
        · have ihp := ih (phoneStep st).2 htr
          have hge := hf.1
          rcases ihp with herr2 | htrerr | ⟨h1, h2⟩
          · rcases hf.2.2.2.2.2.2 herr2 with herr0 | hevserr
            · exact Or.inl herr0
            · exact Or.inr (Or.inl (Or.inl hevserr))
          · exact Or.inr (Or.inl (Or.inr htrerr))
          · refine Or.inr (Or.inr ⟨?_, ?_⟩)
            · rcases h1 with htw2 | hph
              · rcases hf.2.2.2.2.2.1 htw2 with htw0 | hevsph
                · exact Or.inl htw0
                · exact Or.inr (Or.inl hevsph)
              · exact Or.inr (Or.inr hph)
            · rcases h2 with hge2 | hag
              · rw [hge] at hge2
                exact Or.inl hge2
              · exact Or.inr (Or.inr hag)
      | agent =>
        rw [if_neg hd] at hfin ⊢
        simp only [List.any_append, Bool.or_eq_true] at hfin ⊢
        have ha := agentStep_facts st sid
        rcases hfin with hevs | htr
        · rw [ha.2.2.1] at hevs
          exact absurd hevs (by simp)
        · have ihp := ih (agentStep st sid).2 htr
          have htw := ha.1
          rcases ihp with herr2 | htrerr | ⟨h1, h2⟩
          · rcases ha.2.2.2.2.2 herr2 with herr0 | hevserr
            · exact Or.inl herr0
            · exact Or.inr (Or.inl (Or.inl hevserr))
          · exact Or.inr (Or.inl (Or.inr htrerr))
          · refine Or.inr (Or.inr ⟨?_, ?_⟩)
            · rcases h1 with htw2 | hph
              · rw [htw] at htw2
                exact Or.inl htw2
              · exact Or.inr (Or.inr hph)
            · rcases h2 with hge2 | hag
              · rcases ha.2.2.2.2.1 hge2 with hge0 | hevsag
                · exact Or.inl hge0
                · exact Or.inr (Or.inl hevsag)
              · exact Or.inr (Or.inr hag)

/-- C5 counterexample: a start event whose call identifier has no stored
    session does not close the call without an agent session — the handler
    opens the Gemini session anyway, with the default receptionist prompt, and
    runs the relay. -/
theorem C5_counterexample :
    (websocket_endpoint [RawMsg.ok (TwilioMsg.start unknownStart)] [] [Turn.phone, Turn.agent]
        true []).1 =
      [TraceEv.geminiOpened "You are a helpful receptionist.", TraceEv.phoneEnded,
       TraceEv.agentEnded] ∧
    ((websocket_endpoint [RawMsg.ok (TwilioMsg.start unknownStart)] [] [Turn.phone, Turn.agent]
        true []).1.any isGeminiOpened) = true := by
  constructor
  · rfl
  · rfl

/-- C5 amended: when the start event's call identifier has no stored session,
    the orchestrator proceeds anyway — it opens the agent session with the
    default instruction "You are a helpful receptionist." — and the run never
    fires a post-call hand-off, because the finalize guard requires registry
    membership, which the relay cannot create. -/
theorem C5_amended_unknown_session (d : StartData) (ss : String) (rest : List RawMsg)
    (ge : List GeminiEvent) (sched : List Turn) (postOk : Bool) (store : Store)
    (hss : d.streamSid = some ss)
    (habs : lookupStore store (some (callSidOf d)) = none) :
    (websocket_endpoint (RawMsg.ok (TwilioMsg.start d) :: rest) ge sched postOk store).1.head? =
      some (TraceEv.geminiOpened "You are a helpful receptionist.") ∧
    ((websocket_endpoint (RawMsg.ok (TwilioMsg.start d) :: rest) ge sched postOk store).1.any
      isFinalized) = false := by
  have hrelay := relay_no_finalize (some (callSidOf d)) postOk sched
    { twMsgs := rest, geEvents := ge, twDone := false, geDone := false,
      errored := false, store := store } habs
  constructor
  · simp [websocket_endpoint, firstMsgOutcome, hss, habs]
  · simp [websocket_endpoint, firstMsgOutcome, hss, habs, isFinalized, hrelay]

theorem C5_witness :
    (websocket_endpoint [RawMsg.ok (TwilioMsg.start unknownStart)] [] [Turn.phone] true []).1.head? =
      some (TraceEv.geminiOpened "You are a helpful receptionist.") ∧
    ((websocket_endpoint [RawMsg.ok (TwilioMsg.start unknownStart)] [] [Turn.phone] true []).1.any
      isFinalized) = false :=
  C5_amended_unknown_session unknownStart "MS9" [] [] [Turn.phone] true [] rfl rfl

/-- C1 counterexample: the phone leg sends stop while one agent audio chunk is
    still pending, and the run forwards that chunk to the phone leg after the
    stop event and only then finalizes — the orchestrator waited for the agent
    pipeline to drain before reaching the hand-off, refuting either-ends-it. -/
theorem C1_counterexample :
    agentOutputAfterStop (websocket_endpoint demoMsgs demoEvents demoSched true demoStore).1 =
      true ∧
    ((websocket_endpoint demoMsgs demoEvents demoSched true demoStore).1.any isFinalized) =
      true := by
  constructor
  · rfl
  · rfl

/-- C1 amended: the relay joins its two pipelines with asyncio.gather, which
    waits for both: any run whose trace fires the post-call hand-off either
    raised an exception or saw BOTH the phone pipeline and the agent pipeline
    end — the call does not transition on the first pipeline's end alone. -/
theorem C1_amended_gather_waits_for_both (msgs : List RawMsg) (ge : List GeminiEvent)
    (sched : List Turn) (postOk : Bool) (store : Store)
    (hfin : ((websocket_endpoint msgs ge sched postOk store).1.any isFinalized) = true) :
    ((websocket_endpoint msgs ge sched postOk store).1.any isErrorEv) = true ∨
    (((websocket_endpoint msgs ge sched postOk store).1.any isPhoneEnded) = true ∧
     ((websocket_endpoint msgs ge sched postOk store).1.any isAgentEnded) = true) := by
  match msgs with
  | [] => simp [websocket_endpoint] at hfin
  | RawMsg.bad :: rest => simp [websocket_endpoint] at hfin
  | RawMsg.ok m :: rest =>
    cases hout : firstMsgOutcome m with
    | err => simp [websocket_endpoint, hout] at hfin
    | info callSid =>
      simp only [websocket_endpoint, hout, List.any_cons] at hfin ⊢
      simp only [isFinalized] at hfin
      rw [Bool.false_or] at hfin
      have hmain := relay_finalized_needs_both callSid postOk sched
        { twMsgs := rest, geEvents := ge, twDone := false, geDone := false,
          errored := false, store := store } hfin
      simp only [isErrorEv, isPhoneEnded, isAgentEnded, Bool.false_or]
      rcases hmain with herr | htr | ⟨h1, h2⟩
      · exact absurd herr (by simp)
      · exact Or.inl htr
      · rcases h1 with h1 | h1
        · exact absurd h1 (by simp)
        · rcases h2 with h2 | h2
          · exact absurd h2 (by simp)
          · exact Or.inr ⟨h1, h2⟩

theorem C1_witness :
    ((websocket_endpoint demoMsgs demoEvents demoSched true demoStore).1.any isErrorEv) = true ∨
    (((websocket_endpoint demoMsgs demoEvents demoSched true demoStore).1.any isPhoneEnded) =
        true ∧
     ((websocket_endpoint demoMsgs demoEvents demoSched true demoStore).1.any isAgentEnded) =
        true) :=
  C1_amended_gather_waits_for_both demoMsgs demoEvents demoSched true demoStore (by decide)

/-- Caller-to-agent pipeline: its sends are exactly the per-chunk conversions
    of the media payloads it reaches, each computed on the chunk alone. -/
theorem twilio_run_is_map (msgs : List RawMsg) :
    (twilio_to_gemini_run msgs).1 =
      (mediaPayloadsUpToStop msgs).map fun b => (ratecv (ulaw2lin2 b) 8000 24000).getD [] := by
  induction msgs with
  | nil => rfl
  | cons r rest ih =>
    cases r with
    | bad => rfl
    | ok m =>
      cases m with
      | start d => simp [twilio_to_gemini_run, phoneMsgAct, mediaPayloadsUpToStop, ih]
      | other => simp [twilio_to_gemini_run, phoneMsgAct, mediaPayloadsUpToStop, ih]
      | stop => rfl
      | media p =>
        cases p with
        | none => rfl
        | some b =>
          obtain ⟨blob, hb⟩ := Option.isSome_iff_exists.mp (twilioToGeminiAudio_isSome b)
          have hb2 : ratecv (ulaw2lin2 b) 8000 24000 = some blob := hb
          simp [twilio_to_gemini_run, phoneMsgAct, mediaPayloadsUpToStop, hb, hb2, ih]

/-- Agent-to-caller pipeline: its sends are exactly the per-chunk conversions
    of the nonempty audio chunks it reaches, each computed on the chunk
    alone. -/
theorem gemini_run_is_map (evs : List GeminiEvent) (sid : Option String) (store : Store) :
    (gemini_to_twilio_run evs sid store).1 =
      (audioChunksUpToError evs).map fun b => ((ratecv b 24000 8000).bind lin2ulaw2).getD [] := by
  induction evs generalizing store with
  | nil => rfl
  | cons e rest ih =>
    obtain ⟨dat, tc⟩ := e
    cases dat with
    | none =>
      cases tc with
      | none => simp [gemini_to_twilio_run, agentEventAct, audioChunksUpToError, ih]
      | some fns =>
        have hp := processFunctionCalls_events fns sid store
        simp [gemini_to_twilio_run, agentEventAct, audioChunksUpToError, hp.2.2.2.2, ih]
    | some bs =>
      by_cases hbs : bs = []
      · subst hbs
        cases tc with
        | none => simp [gemini_to_twilio_run, agentEventAct, audioChunksUpToError, ih]
        | some fns =>
          have hp := processFunctionCalls_events fns sid store
          simp [gemini_to_twilio_run, agentEventAct, audioChunksUpToError, hp.2.2.2.2, ih]
      · by_cases hev : bs.length % 2 = 0
        · obtain ⟨m, hm⟩ := geminiToTwilioAudio_even_some bs hev
          have hm2 : (ratecv bs 24000 8000).bind lin2ulaw2 = some m := hm
          cases tc with
          | none =>
            simp [gemini_to_twilio_run, agentEventAct, audioChunksUpToError, hbs, hev, hm,
              hm2, phoneSendOf, ih]
          | some fns =>
            have hp := processFunctionCalls_events fns sid store
            simp [gemini_to_twilio_run, agentEventAct, audioChunksUpToError, hbs, hev, hm,
              hm2, phoneSendOf, hp.2.2.2.2, ih]
        · have hm := geminiToTwilioAudio_odd_none bs hev
          simp [gemini_to_twilio_run, agentEventAct, audioChunksUpToError, hbs, hev, hm]

/-- C6: the caller-to-agent conversion is mu-law decode then linear resampling
    from 8000 to the fixed agent rate 24000, the agent-to-caller conversion is
    resampling from 24000 down to 8000 then mu-law re-encoding, and both
    pipelines send exactly the per-chunk map of those pure conversions — the
    resampler is invoked with fresh (None) state on every chunk and its
    returned state is discarded, so no resampler state flows between chunk
    invocations. -/
theorem C6_codec_pipelines_stateless :
    (∀ msgs : List RawMsg,
      (twilio_to_gemini_run msgs).1 =
        (mediaPayloadsUpToStop msgs).map fun b => (ratecv (ulaw2lin2 b) 8000 24000).getD []) ∧
    (∀ (evs : List GeminiEvent) (sid : Option String) (store : Store),
      (gemini_to_twilio_run evs sid store).1 =
        (audioChunksUpToError evs).map fun b => ((ratecv b 24000 8000).bind lin2ulaw2).getD []) :=
  ⟨twilio_run_is_map, gemini_run_is_map⟩

end Receptionist
